import Mathlib

/-!
Verification of the cfdp-rs transport layer, daemon error surface and
acknowledged-mode transaction reliability, as a shallow embedding of
`cfdp-core/src/transport.rs`, `cfdp-daemon/src/error.rs` and (for the
parts of the repository whose sources are not available here) models
written from the design specification.

The transport functions perform socket and channel I/O; we embed each
loop iteration as a pure function of the outcomes the environment hands
the code at that iteration (the result of `recv_from`, of
`sender.send`, of `recv.try_recv`, of `send_to` / `write_all`), keeping
the branch structure of the Rust source exactly.
-/

namespace Cfdp

/-- `VariableID` (entity identifier), modelled as a natural number. -/
abbrev VariableID := Nat

/-- `std::net::SocketAddr`, opaque routing-table value. -/
abbrev SocketAddr := Nat

/-- The `std::io::ErrorKind` values the transport code inspects or produces,
plus a catch-all for every other kind. -/
inductive ErrorKind where
  | WouldBlock
  | TimedOut
  | AddrNotAvailable
  | ConnectionAborted
  | Other
deriving DecidableEq, Repr

/-- `serialport::Error`, which wraps either an `std::io::Error` or a
library-specific failure. -/
inductive SerialErr where
  | Io (k : ErrorKind)
  | Other
deriving DecidableEq, Repr

/-- `cfdp_core::transport::TransportError` (transport.rs lines 19-23). -/
inductive TransportError where
  | Io (k : ErrorKind)
  | Serial (e : SerialErr)
deriving DecidableEq, Repr

/-- A decoded PDU. The transport code treats it as an opaque value that can
be encoded to bytes; we represent it by its payload bytes. -/
structure PDU where
  bytes : List Nat
deriving DecidableEq, Repr

/-- Modelled from the spec: `PDU::encode` lives in `cfdp-core/src/pdu.rs`,
which is not under src/; the spec treats the wire encoding as an opaque
versioned binary contract. We model a minimal length-prefixed format:
the payload length followed by the payload bytes. -/
def PDU.encode (p : PDU) : List Nat :=
  p.bytes.length :: p.bytes

/-- Modelled from the spec: `PDU::decode` lives in `cfdp-core/src/pdu.rs`,
which is not under src/. Inverse of `PDU.encode`: read a length byte, then
that many payload bytes; fail if fewer bytes are available. Like the real
CFDP decoder (whose header carries a data-field length), it reads the
length the header announces, not the datagram boundary. -/
def PDU.decode (buf : List Nat) : Option PDU :=
  match buf with
  | [] => none
  | len :: rest => if len ≤ rest.length then some ⟨rest.take len⟩ else none

/-- `UdpTransport` (transport.rs lines 83-86): a socket plus a map from
entity IDs to socket addresses. The socket itself is pure I/O, so only the
routing table is state; the `HashMap` is modelled as an association list. -/
structure UdpTransport where
  entity_map : List (VariableID × SocketAddr)
deriving DecidableEq, Repr

/-- Outcome the environment hands `UdpSocket::send_to`: success with a byte
count, or an I/O error. -/
inductive SendOutcome where
  | ok (n : Nat)
  | err (k : ErrorKind)
deriving DecidableEq, Repr

/-- `UdpTransport::request` (transport.rs lines 104-114): look the
destination up in `entity_map`, failing with `AddrNotAvailable` when it is
unmapped; otherwise `send_to` the encoded PDU, mapping success with any
byte count `_n` to `Ok(())` and an I/O error to `TransportError::Io`. -/
def UdpTransport.request (t : UdpTransport) (sockOut : SendOutcome)
    (destination : VariableID) (_pdu : PDU) : Except TransportError Unit :=
  match t.entity_map.lookup destination with
  | none => .error (.Io .AddrNotAvailable)
  | some _addr =>
    match sockOut with
    | .ok _n => .ok ()
    | .err k => .error (.Io k)

/-- Outcome of `socket.recv_from(&mut buffer)`: a received datagram (the
bytes written into the front of the buffer) or an I/O error. -/
inductive RecvOutcome where
  | ok (datagram : List Nat)
  | err (k : ErrorKind)
deriving DecidableEq, Repr

/-- Outcome of `sender.send(pdu)` on the inbound channel to the Daemon. -/
inductive SendChanOutcome where
  | ok
  | disconnected
deriving DecidableEq, Repr

/-- Outcome of `recv.try_recv()` on the outbound channel from the Daemon. -/
inductive TryRecvOutcome where
  | ok (entity : VariableID) (pdu : PDU)
  | empty
  | disconnected
deriving DecidableEq, Repr

/-- The environment outcomes one iteration of `UdpTransport::pdu_handler`
can consume: the receive outcome, the inbound-channel send outcome, the
`try_recv` outcome and the socket send outcome for the drained PDU. -/
structure IterInput where
  recvOut : RecvOutcome
  chanOut : SendChanOutcome
  tryOut : TryRecvOutcome
  sockOut : SendOutcome
deriving DecidableEq, Repr

/-- `recv_from` writes the datagram over the front of the reused buffer,
truncating at the buffer's capacity; the bytes past the datagram keep
their previous contents. -/
def writeInto (buffer datagram : List Nat) : List Nat :=
  (datagram ++ buffer.drop datagram.length).take buffer.length

/-- Result of one iteration of a datagram `pdu_handler` loop: continue with
the PDUs forwarded to the Daemon and the new buffer contents, or return
from the handler with an error. -/
inductive StepResult where
  | next (forwarded : List PDU) (buffer : List Nat)
  | exit (forwarded : List PDU) (e : TransportError)
deriving DecidableEq, Repr

/-- The outbound-drain half of a `UdpTransport::pdu_handler` iteration
(transport.rs lines 153-162): `try_recv` once; on a pair, `request` it
(the `?` operator makes a request failure abort the loop); an empty queue
is nothing to do; a disconnected queue aborts with `ConnectionAborted`. -/
def udpDrainStep (t : UdpTransport) (tryOut : TryRecvOutcome)
    (sockOut : SendOutcome) : Option TransportError :=
  match tryOut with
  | .ok entity pdu =>
    match t.request sockOut entity pdu with
    | .ok _ => none
    | .error e => some e
  | .empty => none
  | .disconnected => some (.Io .ConnectionAborted)

/-- One iteration of `UdpTransport::pdu_handler` (transport.rs lines
124-162), embedded exactly: on `recv_from` success the whole reused buffer
(not just the received byte count, which the code discards) is decoded; a
decoded PDU is forwarded on the inbound channel, a channel disconnect
aborts; a decode failure is logged and dropped. On a `recv_from` error the
code tests `e.kind() == WouldBlock && e.kind() == TimedOut` — kept
verbatim — and returns the error when the test fails. Then the
outbound-drain half runs. -/
def udpHandlerStep (t : UdpTransport) (decode : List Nat → Option PDU)
    (buffer : List Nat) (i : IterInput) : StepResult :=
  match i.recvOut with
  | .ok datagram =>
    match decode (writeInto buffer datagram) with
    | some pdu =>
      match i.chanOut with
      | .ok =>
        match udpDrainStep t i.tryOut i.sockOut with
        | none => .next [pdu] (writeInto buffer datagram)
        | some e => .exit [pdu] e
      | .disconnected => .exit [] (.Io .ConnectionAborted)
    | none =>
      match udpDrainStep t i.tryOut i.sockOut with
      | none => .next [] (writeInto buffer datagram)
      | some e => .exit [] e
  | .err k =>
    if k = .WouldBlock ∧ k = .TimedOut then
      match udpDrainStep t i.tryOut i.sockOut with
      | none => .next [] buffer
      | some e => .exit [] e
    else .exit [] (.Io k)

/-- The `pdu_handler` loop over a finite schedule of iteration inputs (the
schedule ends when the shutdown signal is observed true, yielding `Ok`).
Returns the handler's result and every PDU forwarded to the Daemon. -/
def udpHandlerRun (t : UdpTransport) (decode : List Nat → Option PDU) :
    List Nat → List IterInput → Except TransportError Unit × List PDU
  | _, [] => (.ok (), [])
  | buffer, i :: rest =>
    match udpHandlerStep t decode buffer i with
    | .next fwd buf' =>
      let r := udpHandlerRun t decode buf' rest
      (r.1, fwd ++ r.2)
    | .exit fwd e => (.error e, fwd)

/-- `<T: SerialPort>::request` (transport.rs lines 176-179): `write_all`
the encoded PDU, mapping an I/O error into `serialport::Error`. The
destination parameter is ignored (named `_destination` in the source);
there is no routing table. -/
def serialRequest (writeOut : Option ErrorKind) (_destination : VariableID)
    (_pdu : PDU) : Except SerialErr Unit :=
  match writeOut with
  | none => .ok ()
  | some k => .error (.Io k)

/-- The environment outcomes one iteration of the serial `pdu_handler`
consumes: the `bytes_to_read()` result, the stream-decode outcome, the
inbound-channel send outcome, the `try_recv` outcome and the `write_all`
outcome. -/
structure SerialIterInput where
  availOut : Except SerialErr Nat
  decodeOut : Option PDU
  chanOut : SendChanOutcome
  tryOut : TryRecvOutcome
  writeOut : Option ErrorKind
deriving Repr

/-- The outbound-drain half of the serial `pdu_handler` iteration
(transport.rs lines 211-220), same shape as the UDP one. -/
def serialDrainStep (tryOut : TryRecvOutcome) (writeOut : Option ErrorKind) :
    Option SerialErr :=
  match tryOut with
  | .ok entity pdu =>
    match serialRequest writeOut entity pdu with
    | .ok _ => none
    | .error e => some e
  | .empty => none
  | .disconnected => some (.Io .ConnectionAborted)

/-- Result of one iteration of the serial `pdu_handler` loop. -/
inductive SStepResult where
  | next (forwarded : List PDU)
  | exit (forwarded : List PDU) (e : SerialErr)
deriving DecidableEq, Repr

/-- One iteration of `<T: SerialPort>::pdu_handler` (transport.rs lines
188-220): `bytes_to_read()?` propagates its error; when bytes are
available, decode one PDU off the stream — forwarding it, aborting on a
channel disconnect, or logging and dropping a decode failure — then run
the outbound-drain half. -/
def serialHandlerStep (i : SerialIterInput) : SStepResult :=
  match i.availOut with
  | .error e => .exit [] e
  | .ok n =>
    if 0 < n then
      match i.decodeOut with
      | some pdu =>
        match i.chanOut with
        | .ok =>
          match serialDrainStep i.tryOut i.writeOut with
          | none => .next [pdu]
          | some e => .exit [pdu] e
        | .disconnected => .exit [] (.Io .ConnectionAborted)
      | none =>
        match serialDrainStep i.tryOut i.writeOut with
        | none => .next []
        | some e => .exit [] e
    else
      match serialDrainStep i.tryOut i.writeOut with
      | none => .next []
      | some e => .exit [] e

/-- `EntityID`, the endpoint identifier. -/
abbrev EntityID := Nat

/-- Modelled from the spec: `cfdp_core::transaction::TransactionID` is not
under src/; per the spec it is a composite of the originating EndpointID
and a sequence number. -/
abbrev TransactionID := EntityID × Nat

/-- Modelled from the spec: the `Command` type delivered from Daemon to a
Transaction (its definition is not under src/): DeliverPdu, Cancel,
Suspend, Resume, ReportRequest. -/
inductive Command where
  | deliverPdu (p : PDU)
  | cancel
  | suspendCmd
  | resumeCmd
  | reportRequest
deriving DecidableEq, Repr

/-- `cfdp_core::filestore::FileStoreError`, opaque payload of the
`SpawnSend` variant. -/
structure FileStoreError where
  code : Nat
deriving DecidableEq, Repr

/-- `cfdp_daemon::error::DaemonError` (error.rs lines 9-16). -/
inductive DaemonError where
  | SpawnSend (e : FileStoreError)
  | TransactionCommuncation (id : TransactionID) (cmd : Command)
deriving DecidableEq, Repr

/-- `tokio::sync::mpsc::error::SendError<Command>`: carries the value that
could not be delivered because the channel was closed. -/
structure ChanSendError where
  val : Command
deriving DecidableEq, Repr

/-- The `From<(TransactionID, SendError<Command>)>` impl (error.rs lines
17-21): `(id, SendError(cmd))` becomes `TransactionCommuncation(id, cmd)`
(the source extracts the command with `value.1 .0`). -/
def daemonErrorOfSendError (v : TransactionID × ChanSendError) : DaemonError :=
  .TransactionCommuncation v.1 v.2.val

/-- Modelled from the spec: the Daemon's `cancel`/`suspend`/`resume`
forwarding (the daemon source is not under src/). Per the spec it forwards
the Command to the Transaction's command channel; if that channel is
already closed the failure is surfaced as the typed error, via the `From`
conversion embedded above, and reported upward — the single attempt is
never retried. -/
def forwardCommand (channelOpen : Bool) (id : TransactionID) (cmd : Command) :
    Except DaemonError Unit :=
  if channelOpen then .ok () else .error (daemonErrorOfSendError (id, ⟨cmd⟩))

/-!
## The acknowledged-mode transaction machine

The Sender/Receiver state machines and their timers live in
`cfdp-core/src/transaction/*` and `daemon.rs`, which are not under src/
(only the integration tests `tests/series_f2.rs` are). The model below is
written from the specification's §4.3: Metadata/FileData/EOF then
EOF-acknowledgment, Finished, Finished-acknowledgment; per-PDU ACK timers
with retransmission; a consecutive-timeout counter faulting with
`PositiveLimitReached` past a configured limit; receiver NAKs for missing
pieces (here: missing Metadata or missing file data, discovered at EOF);
FileData applied by absolute offset (the file travels as one segment at
offset 0, since the claims under test drop only control PDUs).
-/

/-- The PDU kinds of the model (the spec's directive codes, with the two
acknowledgment kinds distinguished by what they acknowledge). -/
inductive Kind where
  | MetadataK
  | FileDataK
  | EofK
  | AckEofK
  | FinishedK
  | AckFinK
  | NakK
deriving DecidableEq, Repr

/-- Modelled from the spec: the protocol-level PDUs of one acknowledged
transfer. -/
inductive ProtoPdu where
  | metadata (fileSize : Nat)
  | fileData (offset : Nat) (chunk : List Nat)
  | eof (fileSize : Nat)
  | ackEof
  | finished
  | ackFin
  | nak (needMeta : Bool) (needData : Bool)
deriving DecidableEq, Repr

/-- The directive kind of a model PDU. -/
def ProtoPdu.kind : ProtoPdu → Kind
  | .metadata _ => .MetadataK
  | .fileData _ _ => .FileDataK
  | .eof _ => .EofK
  | .ackEof => .AckEofK
  | .finished => .FinishedK
  | .ackFin => .AckFinK
  | .nak _ _ => .NakK

/-- The terminal/fault condition codes the model reports
(`cfdp_core::pdu::Condition` in the tests). -/
inductive Condition where
  | NoError
  | PositiveLimitReached
deriving DecidableEq, Repr

/-- Sender phases: emit everything, await the EOF acknowledgment, await
Finished, closed, or faulted. -/
inductive SPhase where
  | start
  | waitAckEof
  | waitFin
  | closed
  | fault
deriving DecidableEq, Repr

/-- Modelled from the spec: the sender transaction's state. -/
structure SendSt where
  phase : SPhase
  retries : Nat
  condition : Condition
deriving DecidableEq, Repr

/-- Modelled from the spec: the receiver transaction's state. `fileBuf` is
the destination file content written by absolute offset (one segment at
offset 0). -/
structure RecvSt where
  gotMeta : Bool
  fileBuf : Option (List Nat)
  gotEof : Bool
  sentFin : Bool
  closedR : Bool
deriving DecidableEq, Repr

/-- The sender's initial burst: Metadata, the file data, EOF. -/
def senderEmitAll (f : List Nat) : List ProtoPdu :=
  [.metadata f.length, .fileData 0 f, .eof f.length]

/-- Modelled from the spec: the sender's reaction to one inbound PDU.
An EOF acknowledgment moves it past `waitAckEof`; Finished is answered
with an acknowledgment (idempotently, also after closing); a NAK triggers
retransmission of exactly the requested pieces. A faulted sender ignores
everything. -/
def senderHandlePdu (f : List Nat) (st : SendSt) (p : ProtoPdu) :
    SendSt × List ProtoPdu :=
  match st.phase with
  | .fault => (st, [])
  | _ =>
    match p with
    | .ackEof =>
      (if st.phase = .waitAckEof then { st with phase := .waitFin } else st, [])
    | .finished => ({ st with phase := .closed }, [.ackFin])
    | .nak needMeta needData =>
      (st, (if needMeta then [ProtoPdu.metadata f.length] else []) ++
           (if needData then [ProtoPdu.fileData 0 f] else []))
    | _ => (st, [])

/-- Fold `senderHandlePdu` over an inbox. -/
def senderHandleAll (f : List Nat) : SendSt → List ProtoPdu →
    SendSt × List ProtoPdu
  | st, [] => (st, [])
  | st, p :: rest =>
    let r := senderHandlePdu f st p
    let r' := senderHandleAll f r.1 rest
    (r'.1, r.2 ++ r'.2)

/-- Modelled from the spec: the sender's timer, fired on a round with no
inbound traffic. From `start` it emits the initial burst; in `waitAckEof`
it either retransmits EOF, counting the consecutive timeout, or — once the
counter has used up the configured limit — transitions to the terminal
fault `PositiveLimitReached` and stops. -/
def senderTimer (f : List Nat) (limit : Nat) (st : SendSt) :
    SendSt × List ProtoPdu :=
  match st.phase with
  | .start => ({ st with phase := .waitAckEof }, senderEmitAll f)
  | .waitAckEof =>
    if limit ≤ st.retries then
      ({ st with phase := .fault, condition := .PositiveLimitReached }, [])
    else
      ({ st with retries := st.retries + 1 }, [.eof f.length])
  | _ => (st, [])

/-- One sender activation: handle the inbox, or fire the timer when the
inbox is empty. -/
def senderAct (f : List Nat) (limit : Nat) (st : SendSt)
    (inbox : List ProtoPdu) : SendSt × List ProtoPdu :=
  match inbox with
  | [] => senderTimer f limit st
  | _ => senderHandleAll f st inbox

/-- The receiver holds the complete transfer: Metadata, file data and EOF
have all arrived. -/
def RecvSt.complete (st : RecvSt) : Bool :=
  st.gotMeta && st.fileBuf.isSome && st.gotEof

/-- Modelled from the spec: the receiver's reaction to one inbound PDU.
FileData is applied by absolute offset (idempotent overwrite); EOF is
acknowledged immediately and, when pieces are missing, answered with a NAK
enumerating exactly the missing pieces; a Finished acknowledgment closes
the transaction. -/
def receiverHandlePdu (st : RecvSt) (p : ProtoPdu) : RecvSt × List ProtoPdu :=
  match p with
  | .metadata _ => ({ st with gotMeta := true }, [])
  | .fileData _off chunk => ({ st with fileBuf := some chunk }, [])
  | .eof _ =>
    let st' := { st with gotEof := true }
    ((st' : RecvSt),
      [ProtoPdu.ackEof] ++
        (if !st'.gotMeta || st'.fileBuf.isNone then
          [ProtoPdu.nak (!st'.gotMeta) st'.fileBuf.isNone]
        else []))
  | .ackFin => ({ st with closedR := true }, [])
  | _ => (st, [])

/-- Fold `receiverHandlePdu` over an inbox. -/
def receiverHandleAll : RecvSt → List ProtoPdu → RecvSt × List ProtoPdu
  | st, [] => (st, [])
  | st, p :: rest =>
    let r := receiverHandlePdu st p
    let r' := receiverHandleAll r.1 rest
    (r'.1, r.2 ++ r'.2)

/-- After handling its inbox, a receiver that has just become complete
emits Finished (once). -/
def receiverFinishCheck (st : RecvSt) : RecvSt × List ProtoPdu :=
  if st.complete && !st.sentFin then
    ({ st with sentFin := true }, [.finished])
  else (st, [])

/-- Modelled from the spec: the receiver's timer, fired on a round with no
inbound traffic: while its Finished is unacknowledged it retransmits
Finished. -/
def receiverTimer (st : RecvSt) : RecvSt × List ProtoPdu :=
  if st.sentFin && !st.closedR then (st, [.finished]) else (st, [])

/-- One receiver activation: handle the inbox then the completion check,
or fire the timer when the inbox is empty. -/
def receiverAct (st : RecvSt) (inbox : List ProtoPdu) :
    RecvSt × List ProtoPdu :=
  match inbox with
  | [] => receiverTimer st
  | _ =>
    let r := receiverHandleAll st inbox
    let r' := receiverFinishCheck r.1
    (r'.1, r.2 ++ r'.2)

/-- Direction of travel of a batch of PDUs. -/
inductive Direction where
  | toReceiver
  | toSender
deriving DecidableEq, Repr

/-- The transport loss being injected: nothing, the first instance of one
kind (the tests' `TransportIssue::Once`), or persistently every PDU of the
listed kinds travelling towards the sender (the f2s7 configuration). -/
inductive DropRule where
  | noneR
  | once (k : Kind)
  | allToSender (ks : List Kind)
deriving DecidableEq, Repr

/-- Remove the first PDU of kind `k`, reporting whether one was removed. -/
def dropFirst (k : Kind) : List ProtoPdu → List ProtoPdu × Bool
  | [] => ([], false)
  | p :: rest =>
    if p.kind = k then (rest, true)
    else
      let r := dropFirst k rest
      (p :: r.1, r.2)

/-- Apply the drop rule to a batch travelling in direction `d`, returning
the surviving PDUs and the remaining rule. -/
def applyDrop (rule : DropRule) (d : Direction) (ps : List ProtoPdu) :
    List ProtoPdu × DropRule :=
  match rule with
  | .noneR => (ps, .noneR)
  | .once k =>
    let r := dropFirst k ps
    (r.1, if r.2 then .noneR else .once k)
  | .allToSender ks =>
    (if d = .toSender then ps.filter (fun p => !(ks.contains p.kind)) else ps,
     .allToSender ks)

/-- The joint state of one acknowledged transfer: the two transaction
states, the PDUs in flight towards the sender, and the remaining loss
rule. (PDUs towards the receiver are consumed within the round that emits
them.) -/
structure Sim where
  snd : SendSt
  rcv : RecvSt
  toSnd : List ProtoPdu
  drop : DropRule
deriving DecidableEq, Repr

/-- One round of the transfer: the sender consumes what reached it and
emits (through the loss rule) to the receiver; the receiver consumes that
and emits (through the loss rule) towards the sender for the next round. -/
def stepRound (f : List Nat) (limit : Nat) (s : Sim) : Sim :=
  let sr := senderAct f limit s.snd s.toSnd
  let dr := applyDrop s.drop .toReceiver sr.2
  let rr := receiverAct s.rcv dr.1
  let dr' := applyDrop dr.2 .toSender rr.2
  { snd := sr.1, rcv := rr.1, toSnd := dr'.1, drop := dr'.2 }

/-- Fresh transfer under a given loss rule. -/
def initSim (rule : DropRule) : Sim :=
  { snd := { phase := .start, retries := 0, condition := .NoError },
    rcv := { gotMeta := false, fileBuf := none, gotEof := false,
             sentFin := false, closedR := false },
    toSnd := [], drop := rule }

/-- Iterate `stepRound`. -/
def runRounds (f : List Nat) (limit : Nat) : Nat → Sim → Sim
  | 0, s => s
  | n + 1, s => stepRound f limit (runRounds f limit n s)

/-- The f2s7 loss configuration: every acknowledgment or Finished PDU
directed at the sender is dropped, indefinitely. -/
def c3Rule : DropRule := .allToSender [.AckEofK, .FinishedK]

/-- Steady state under `c3Rule` while the sender still waits for its EOF
acknowledgment with `r` consecutive timeouts counted. -/
def waitSim (f : List Nat) (r : Nat) : Sim :=
  { snd := { phase := .waitAckEof, retries := r, condition := .NoError },
    rcv := { gotMeta := true, fileBuf := some f, gotEof := true,
             sentFin := true, closedR := false },
    toSnd := [], drop := c3Rule }

/-- Terminal state under `c3Rule`: the sender has exhausted its retry
budget and faulted with `PositiveLimitReached`. -/
def faultSim (f : List Nat) (limit : Nat) : Sim :=
  { snd := { phase := .fault, retries := limit,
             condition := .PositiveLimitReached },
    rcv := { gotMeta := true, fileBuf := some f, gotEof := true,
             sentFin := true, closedR := false },
    toSnd := [], drop := c3Rule }

/-- Round one under `c3Rule`: the sender's burst arrives intact, the
receiver completes and its acknowledgment and Finished are both dropped. -/
theorem c3_round1 (f : List Nat) (limit : Nat) :
    runRounds f limit 1 (initSim c3Rule) = waitSim f 0 := rfl

/-- While below the limit, each silent round retransmits EOF and counts
one more consecutive timeout. -/
theorem c3_step_wait (f : List Nat) (limit r : Nat) (h : r < limit) :
    stepRound f limit (waitSim f r) = waitSim f (r + 1) := by
  have hs : senderTimer f limit
        { phase := .waitAckEof, retries := r, condition := .NoError } =
      ({ phase := .waitAckEof, retries := r + 1, condition := .NoError },
        [ProtoPdu.eof f.length]) := by
    simp [senderTimer, Nat.not_le.mpr h]
  have hs' : senderAct f limit (waitSim f r).snd (waitSim f r).toSnd =
      ({ phase := .waitAckEof, retries := r + 1, condition := .NoError },
        [ProtoPdu.eof f.length]) := hs
  unfold stepRound
  rw [hs']
  rfl

/-- At the limit, the timer faults the sender with
`PositiveLimitReached`. -/
theorem c3_step_limit (f : List Nat) (limit : Nat) :
    runRounds f limit 1 (waitSim f limit) = faultSim f limit := by
  show stepRound f limit (waitSim f limit) = faultSim f limit
  have hs : senderTimer f limit
        { phase := .waitAckEof, retries := limit, condition := .NoError } =
      ({ phase := .fault, retries := limit,
          condition := .PositiveLimitReached }, []) := by
    simp [senderTimer]
  have hs' : senderAct f limit (waitSim f limit).snd (waitSim f limit).toSnd =
      ({ phase := .fault, retries := limit,
          condition := .PositiveLimitReached }, []) := hs
  unfold stepRound
  rw [hs']
  rfl

/-- The faulted state is a fixed point of the round function: the sender
never retries, the receiver's Finished retransmissions keep being
dropped. -/
theorem c3_step_fault (f : List Nat) (limit : Nat) :
    stepRound f limit (faultSim f limit) = faultSim f limit := rfl

/-- Chasing the timeout counter up to the limit. -/
theorem c3_runRounds_wait (f : List Nat) (limit : Nat) :
    ∀ j r, r + j ≤ limit →
      runRounds f limit j (waitSim f r) = waitSim f (r + j) := by
  intro j
  induction j with
  | zero => intro r _; rfl
  | succ j ih =>
    intro r h
    show stepRound f limit (runRounds f limit j (waitSim f r)) = _
    rw [ih r (by omega), c3_step_wait f limit (r + j) (by omega)]
    rfl

/-- The fault state absorbs any further rounds. -/
theorem c3_runRounds_fault (f : List Nat) (limit : Nat) :
    ∀ m, runRounds f limit m (faultSim f limit) = faultSim f limit := by
  intro m
  induction m with
  | zero => rfl
  | succ m ih =>
    show stepRound f limit (runRounds f limit m (faultSim f limit)) = _
    rw [ih, c3_step_fault]

/-- Splitting a run of rounds. -/
theorem runRounds_add (f : List Nat) (limit : Nat) :
    ∀ b a s, runRounds f limit (a + b) s =
      runRounds f limit b (runRounds f limit a s) := by
  intro b
  induction b with
  | zero => intro a s; rfl
  | succ b ih =>
    intro a s
    show stepRound f limit (runRounds f limit (a + b) s) = _
    rw [ih]
    rfl

/-!
## The claims
-/

/-- Claim C1: for every acknowledged-mode transfer in which exactly one
instance of one control-PDU kind (Metadata, EOF, Finished, ACK-of-EOF, or
ACK-of-Finished) is dropped by the transport, the transfer still completes
(the receiver closes and the sender reaches its closed phase) and the
destination file's content is byte-identical to the source file's
content — for every file content `f` and every positive retry limit
`l + 1`. -/
theorem claim_C1 (f : List Nat) (l : Nat) (k : Kind)
    (hk : k = .MetadataK ∨ k = .EofK ∨ k = .FinishedK ∨ k = .AckEofK ∨
      k = .AckFinK) :
    (runRounds f (l + 1) 4 (initSim (.once k))).rcv.closedR = true ∧
    (runRounds f (l + 1) 4 (initSim (.once k))).rcv.fileBuf = some f ∧
    (runRounds f (l + 1) 4 (initSim (.once k))).snd.phase = .closed ∧
    (runRounds f (l + 1) 4 (initSim (.once k))).snd.condition = .NoError := by
  rcases hk with rfl | rfl | rfl | rfl | rfl
  · -- Metadata dropped: the receiver NAKs the missing Metadata at EOF.
    have run : runRounds f (l + 1) 4 (initSim (.once .MetadataK)) =
        ⟨⟨.closed, 0, .NoError⟩, ⟨true, some f, true, true, true⟩, [],
          .noneR⟩ := by
      show stepRound f (l + 1) (stepRound f (l + 1) (stepRound f (l + 1)
        (stepRound f (l + 1) (initSim (.once .MetadataK))))) = _
      rw [show stepRound f (l + 1) (initSim (.once .MetadataK)) =
          ⟨⟨.waitAckEof, 0, .NoError⟩, ⟨false, some f, true, false, false⟩,
            [.ackEof, .nak true false], .noneR⟩ from rfl]
      rw [show stepRound f (l + 1)
            ⟨⟨.waitAckEof, 0, .NoError⟩, ⟨false, some f, true, false, false⟩,
              [.ackEof, .nak true false], .noneR⟩ =
          ⟨⟨.waitFin, 0, .NoError⟩, ⟨true, some f, true, true, false⟩,
            [.finished], .noneR⟩ from rfl]
      rw [show stepRound f (l + 1)
            ⟨⟨.waitFin, 0, .NoError⟩, ⟨true, some f, true, true, false⟩,
              [.finished], .noneR⟩ =
          ⟨⟨.closed, 0, .NoError⟩, ⟨true, some f, true, true, true⟩, [],
            .noneR⟩ from rfl]
      rw [show stepRound f (l + 1)
            ⟨⟨.closed, 0, .NoError⟩, ⟨true, some f, true, true, true⟩, [],
              .noneR⟩ =
          ⟨⟨.closed, 0, .NoError⟩, ⟨true, some f, true, true, true⟩, [],
            .noneR⟩ from rfl]
    rw [run]
    exact ⟨rfl, rfl, rfl, rfl⟩
  · -- EOF dropped: the sender's ACK timer retransmits EOF once.
    have run : runRounds f (l + 1) 4 (initSim (.once .EofK)) =
        ⟨⟨.closed, 1, .NoError⟩, ⟨true, some f, true, true, true⟩, [],
          .noneR⟩ := by
      show stepRound f (l + 1) (stepRound f (l + 1) (stepRound f (l + 1)
        (stepRound f (l + 1) (initSim (.once .EofK))))) = _
      rw [show stepRound f (l + 1) (initSim (.once .EofK)) =
          ⟨⟨.waitAckEof, 0, .NoError⟩, ⟨true, some f, false, false, false⟩,
            [], .noneR⟩ from rfl]
      rw [show stepRound f (l + 1)
            ⟨⟨.waitAckEof, 0, .NoError⟩, ⟨true, some f, false, false, false⟩,
              [], .noneR⟩ =
          ⟨⟨.waitAckEof, 1, .NoError⟩, ⟨true, some f, true, true, false⟩,
            [.ackEof, .finished], .noneR⟩ from rfl]
      rw [show stepRound f (l + 1)
            ⟨⟨.waitAckEof, 1, .NoError⟩, ⟨true, some f, true, true, false⟩,
              [.ackEof, .finished], .noneR⟩ =
          ⟨⟨.closed, 1, .NoError⟩, ⟨true, some f, true, true, true⟩, [],
            .noneR⟩ from rfl]
      rw [show stepRound f (l + 1)
            ⟨⟨.closed, 1, .NoError⟩, ⟨true, some f, true, true, true⟩, [],
              .noneR⟩ =
          ⟨⟨.closed, 1, .NoError⟩, ⟨true, some f, true, true, true⟩, [],
            .noneR⟩ from rfl]
    rw [run]
    exact ⟨rfl, rfl, rfl, rfl⟩
  · -- Finished dropped: the receiver's timer retransmits Finished.
    have run : runRounds f (l + 1) 4 (initSim (.once .FinishedK)) =
        ⟨⟨.closed, 0, .NoError⟩, ⟨true, some f, true, true, true⟩, [],
          .noneR⟩ := by
      show stepRound f (l + 1) (stepRound f (l + 1) (stepRound f (l + 1)
        (stepRound f (l + 1) (initSim (.once .FinishedK))))) = _
      rw [show stepRound f (l + 1) (initSim (.once .FinishedK)) =
          ⟨⟨.waitAckEof, 0, .NoError⟩, ⟨true, some f, true, true, false⟩,
            [.ackEof], .noneR⟩ from rfl]
      rw [show stepRound f (l + 1)
            ⟨⟨.waitAckEof, 0, .NoError⟩, ⟨true, some f, true, true, false⟩,
              [.ackEof], .noneR⟩ =
          ⟨⟨.waitFin, 0, .NoError⟩, ⟨true, some f, true, true, false⟩,
            [.finished], .noneR⟩ from rfl]
      rw [show stepRound f (l + 1)
            ⟨⟨.waitFin, 0, .NoError⟩, ⟨true, some f, true, true, false⟩,
              [.finished], .noneR⟩ =
          ⟨⟨.closed, 0, .NoError⟩, ⟨true, some f, true, true, true⟩, [],
            .noneR⟩ from rfl]
      rw [show stepRound f (l + 1)
            ⟨⟨.closed, 0, .NoError⟩, ⟨true, some f, true, true, true⟩, [],
              .noneR⟩ =
          ⟨⟨.closed, 0, .NoError⟩, ⟨true, some f, true, true, true⟩, [],
            .noneR⟩ from rfl]
    rw [run]
    exact ⟨rfl, rfl, rfl, rfl⟩
  · -- ACK-of-EOF dropped: the Finished PDU itself moves the sender on.
    have run : runRounds f (l + 1) 4 (initSim (.once .AckEofK)) =
        ⟨⟨.closed, 0, .NoError⟩, ⟨true, some f, true, true, true⟩, [],
          .noneR⟩ := by
      show stepRound f (l + 1) (stepRound f (l + 1) (stepRound f (l + 1)
        (stepRound f (l + 1) (initSim (.once .AckEofK))))) = _
      rw [show stepRound f (l + 1) (initSim (.once .AckEofK)) =
          ⟨⟨.waitAckEof, 0, .NoError⟩, ⟨true, some f, true, true, false⟩,
            [.finished], .noneR⟩ from rfl]
      rw [show stepRound f (l + 1)
            ⟨⟨.waitAckEof, 0, .NoError⟩, ⟨true, some f, true, true, false⟩,
              [.finished], .noneR⟩ =
          ⟨⟨.closed, 0, .NoError⟩, ⟨true, some f, true, true, true⟩, [],
            .noneR⟩ from rfl]
      rw [show stepRound f (l + 1)
            ⟨⟨.closed, 0, .NoError⟩, ⟨true, some f, true, true, true⟩, [],
              .noneR⟩ =
          ⟨⟨.closed, 0, .NoError⟩, ⟨true, some f, true, true, true⟩, [],
            .noneR⟩ from rfl]
      rw [show stepRound f (l + 1)
            ⟨⟨.closed, 0, .NoError⟩, ⟨true, some f, true, true, true⟩, [],
              .noneR⟩ =
          ⟨⟨.closed, 0, .NoError⟩, ⟨true, some f, true, true, true⟩, [],
            .noneR⟩ from rfl]
    rw [run]
    exact ⟨rfl, rfl, rfl, rfl⟩
  · -- ACK-of-Finished dropped: the receiver retransmits Finished and the
    -- closed sender re-acknowledges it.
    have run : runRounds f (l + 1) 4 (initSim (.once .AckFinK)) =
        ⟨⟨.closed, 0, .NoError⟩, ⟨true, some f, true, true, true⟩, [],
          .noneR⟩ := by
      show stepRound f (l + 1) (stepRound f (l + 1) (stepRound f (l + 1)
        (stepRound f (l + 1) (initSim (.once .AckFinK))))) = _
      rw [show stepRound f (l + 1) (initSim (.once .AckFinK)) =
          ⟨⟨.waitAckEof, 0, .NoError⟩, ⟨true, some f, true, true, false⟩,
            [.ackEof, .finished], .once .AckFinK⟩ from rfl]
      rw [show stepRound f (l + 1)
            ⟨⟨.waitAckEof, 0, .NoError⟩, ⟨true, some f, true, true, false⟩,
              [.ackEof, .finished], .once .AckFinK⟩ =
          ⟨⟨.closed, 0, .NoError⟩, ⟨true, some f, true, true, false⟩,
            [.finished], .noneR⟩ from rfl]
      rw [show stepRound f (l + 1)
            ⟨⟨.closed, 0, .NoError⟩, ⟨true, some f, true, true, false⟩,
              [.finished], .noneR⟩ =
          ⟨⟨.closed, 0, .NoError⟩, ⟨true, some f, true, true, true⟩, [],
            .noneR⟩ from rfl]
      rw [show stepRound f (l + 1)
            ⟨⟨.closed, 0, .NoError⟩, ⟨true, some f, true, true, true⟩, [],
              .noneR⟩ =
          ⟨⟨.closed, 0, .NoError⟩, ⟨true, some f, true, true, true⟩, [],
            .noneR⟩ from rfl]
    rw [run]
    exact ⟨rfl, rfl, rfl, rfl⟩

/-- Witness for C1 at a concrete file, limit and dropped kind. -/
theorem claim_C1_witness :
    (runRounds [3, 1, 4] 1 4 (initSim (.once .MetadataK))).rcv.closedR =
      true ∧
    (runRounds [3, 1, 4] 1 4 (initSim (.once .MetadataK))).rcv.fileBuf =
      some [3, 1, 4] ∧
    (runRounds [3, 1, 4] 1 4 (initSim (.once .MetadataK))).snd.phase =
      .closed ∧
    (runRounds [3, 1, 4] 1 4 (initSim (.once .MetadataK))).snd.condition =
      .NoError :=
  claim_C1 [3, 1, 4] 0 .MetadataK (Or.inl rfl)

/-- Claim C3: if every acknowledgment and Finished PDU directed at the
sender is dropped indefinitely, then once the consecutive-timeout counter
has exhausted the configured limit the sender's transaction reaches the
terminal fault `PositiveLimitReached`, reports exactly that condition,
and is a fixed point of the machine from then on: one more round changes
nothing and the faulted sender's timer emits no retransmission — the
engine never automatically retries. -/
theorem claim_C3 (f : List Nat) (limit n : Nat) (h : limit + 2 ≤ n) :
    (runRounds f limit n (initSim c3Rule)).snd.condition =
      .PositiveLimitReached ∧
    (runRounds f limit n (initSim c3Rule)).snd.phase = .fault ∧
    stepRound f limit (runRounds f limit n (initSim c3Rule)) =
      runRounds f limit n (initSim c3Rule) ∧
    (senderAct f limit (runRounds f limit n (initSim c3Rule)).snd []).2 =
      [] := by
  obtain ⟨m, rfl⟩ : ∃ m, n = 1 + (limit + (1 + m)) :=
    ⟨n - (limit + 2), by omega⟩
  have key : runRounds f limit (1 + (limit + (1 + m))) (initSim c3Rule) =
      faultSim f limit := by
    rw [runRounds_add f limit (limit + (1 + m)) 1, c3_round1,
      runRounds_add f limit (1 + m) limit]
    have hw := c3_runRounds_wait f limit limit 0 (by omega)
    rw [Nat.zero_add] at hw
    rw [hw, runRounds_add f limit m 1, c3_step_limit,
      c3_runRounds_fault]
  rw [key]
  exact ⟨rfl, rfl, c3_step_fault f limit, rfl⟩

/-- Witness for C3 at a concrete file, limit and round count. -/
theorem claim_C3_witness :
    1 + 2 ≤ 3 ∧
    ((runRounds [5] 1 3 (initSim c3Rule)).snd.condition =
        .PositiveLimitReached ∧
      (runRounds [5] 1 3 (initSim c3Rule)).snd.phase = .fault ∧
      stepRound [5] 1 (runRounds [5] 1 3 (initSim c3Rule)) =
        runRounds [5] 1 3 (initSim c3Rule) ∧
      (senderAct [5] 1 (runRounds [5] 1 3 (initSim c3Rule)).snd []).2 =
        []) :=
  ⟨by decide, claim_C3 [5] 1 3 (by decide)⟩

/-- Claim C2 (code bug): `UdpTransport::pdu_handler`'s receive-error guard
reads `e.kind() == ErrorKind::WouldBlock && e.kind() == ErrorKind::TimedOut`
(transport.rs line 143) — a conjunction no error kind satisfies — so a
timeout/would-block receive error does NOT fall into the recoverable
branch: the handler returns the error and the loop terminates, instead of
proceeding to the outbound-drain step as the claim and the code's own
comment ("continue to trying to send") require. This theorem evaluates
the embedded iteration at the failing inputs. -/
theorem claim_C2_bug :
    udpHandlerStep ⟨[(1, 8)]⟩ PDU.decode [0, 0]
        ⟨.err .WouldBlock, .ok, .empty, .ok 0⟩ =
      .exit [] (.Io .WouldBlock) ∧
    udpHandlerStep ⟨[(1, 8)]⟩ PDU.decode [0, 0]
        ⟨.err .TimedOut, .ok, .empty, .ok 0⟩ =
      .exit [] (.Io .TimedOut) :=
  ⟨rfl, rfl⟩

/-- Claim C4: in every `pdu_handler` implementation, a failure to decode a
received unit of data is recoverable: no PDU is forwarded for it, the
handler does not return an error because of it, and the iteration proceeds
exactly as the outbound-drain step alone dictates — for the datagram
variant and the byte-stream variant alike. -/
theorem claim_C4 :
    (∀ (t : UdpTransport) (decode : List Nat → Option PDU)
        (buffer datagram : List Nat) (chanOut : SendChanOutcome)
        (tryOut : TryRecvOutcome) (sockOut : SendOutcome),
      decode (writeInto buffer datagram) = none →
      udpHandlerStep t decode buffer ⟨.ok datagram, chanOut, tryOut, sockOut⟩ =
        (match udpDrainStep t tryOut sockOut with
          | none => .next [] (writeInto buffer datagram)
          | some e => .exit [] e)) ∧
    (∀ (decodeOut : Option PDU) (chanOut : SendChanOutcome)
        (tryOut : TryRecvOutcome) (writeOut : Option ErrorKind) (n : Nat),
      decodeOut = none → 0 < n →
      serialHandlerStep ⟨.ok n, decodeOut, chanOut, tryOut, writeOut⟩ =
        (match serialDrainStep tryOut writeOut with
          | none => .next []
          | some e => .exit [] e)) := by
  constructor
  · intro t decode buffer datagram chanOut tryOut sockOut h
    simp only [udpHandlerStep]
    rw [h]
  · intro decodeOut chanOut tryOut writeOut n hdec hn
    subst hdec
    simp only [serialHandlerStep]
    rw [if_pos hn]

/-- Witness for C4 at concrete inputs for both variants. -/
theorem claim_C4_witness :
    udpHandlerStep ⟨[]⟩ (fun _ => none) [0] ⟨.ok [1], .ok, .empty, .ok 0⟩ =
      .next [] (writeInto [0] [1]) ∧
    serialHandlerStep ⟨.ok 1, none, .ok, .empty, none⟩ = .next [] :=
  ⟨claim_C4.1 ⟨[]⟩ (fun _ => none) [0] [1] .ok .empty (.ok 0) rfl,
    claim_C4.2 none .ok .empty none 1 rfl (by decide)⟩

/-- Claim C5 counterexample: the byte-stream (serial) Transport's
`request` performs no routing-table lookup at all — it ignores its
destination argument (named `_destination` in the source) and has no
entity map — so for an unmapped destination it does not fail with an
address-not-found error: with a successful write it returns `Ok`, and the
result is identical for any two destinations. -/
theorem claim_C5_counterexample :
    serialRequest none 5 ⟨[1, 2]⟩ = .ok () ∧
    serialRequest none 5 ⟨[1, 2]⟩ = serialRequest none 6 ⟨[1, 2]⟩ :=
  ⟨rfl, rfl⟩

/-- Claim C5 as amended: the datagram variant's `request` looks the
destination up in the routing table, fails with `AddrNotAvailable` when it
is unmapped, and otherwise encodes and transmits, failing with the
medium's I/O error on transmission failure; the byte-stream variant
ignores the destination (it has no routing table and serves its single
medium), transmitting unconditionally and failing only with a
medium-specific I/O error on write failure. -/
theorem claim_C5_amended :
    (∀ (t : UdpTransport) (dest : VariableID) (pdu : PDU)
        (sockOut : SendOutcome),
      t.entity_map.lookup dest = none →
      t.request sockOut dest pdu = .error (.Io .AddrNotAvailable)) ∧
    (∀ (t : UdpTransport) (dest : VariableID) (pdu : PDU)
        (addr : SocketAddr) (k : ErrorKind),
      t.entity_map.lookup dest = some addr →
      t.request (.err k) dest pdu = .error (.Io k)) ∧
    (∀ (t : UdpTransport) (dest : VariableID) (pdu : PDU)
        (addr : SocketAddr) (n : Nat),
      t.entity_map.lookup dest = some addr →
      t.request (.ok n) dest pdu = .ok ()) ∧
    (∀ (dest : VariableID) (pdu : PDU),
      serialRequest none dest pdu = .ok ()) ∧
    (∀ (dest : VariableID) (pdu : PDU) (k : ErrorKind),
      serialRequest (some k) dest pdu = .error (.Io k)) := by
  refine ⟨?_, ?_, ?_, fun _ _ => rfl, fun _ _ _ => rfl⟩
  · intro t dest pdu sockOut h
    simp only [UdpTransport.request]
    rw [h]
  · intro t dest pdu addr k h
    simp only [UdpTransport.request]
    rw [h]
  · intro t dest pdu addr n h
    simp only [UdpTransport.request]
    rw [h]

/-- Witness for the amended C5 at concrete inputs. -/
theorem claim_C5_witness :
    UdpTransport.request ⟨[]⟩ (.ok 0) 5 ⟨[1]⟩ =
      .error (.Io .AddrNotAvailable) ∧
    UdpTransport.request ⟨[(5, 9)]⟩ (.err .Other) 5 ⟨[1]⟩ =
      .error (.Io .Other) ∧
    UdpTransport.request ⟨[(5, 9)]⟩ (.ok 3) 5 ⟨[1]⟩ = .ok () :=
  ⟨claim_C5_amended.1 ⟨[]⟩ 5 ⟨[1]⟩ (.ok 0) rfl,
    claim_C5_amended.2.1 ⟨[(5, 9)]⟩ 5 ⟨[1]⟩ 9 .Other rfl,
    claim_C5_amended.2.2.1 ⟨[(5, 9)]⟩ 5 ⟨[1]⟩ 9 3 rfl⟩

/-- Claim C6 counterexample: an iteration in which the receive succeeded
(decoding to nothing), both channels are healthy, and the outbound queue
holds a PDU for an unmapped destination terminates the loop with an error
(`AddrNotAvailable`, propagated by the `?` on `self.request(entity, pdu)`
at transport.rs line 154) — a condition that is neither a hard I/O failure
on the medium nor a channel disconnect. -/
theorem claim_C6_counterexample :
    udpHandlerStep ⟨[]⟩ (fun _ => none) [0]
        ⟨.ok [1], .ok, .ok 7 ⟨[2]⟩, .ok 0⟩ =
      .exit [] (.Io .AddrNotAvailable) := rfl

/-- Claim C6 as amended: besides a hard receive failure and a channel
disconnect, a failure of `request` while transmitting one outbound PDU
(an unmapped destination, or a send error) is also fatal to the loop,
which terminates propagating exactly that error. -/
theorem claim_C6_amended (t : UdpTransport) (decode : List Nat → Option PDU)
    (buffer datagram : List Nat) (chanOut : SendChanOutcome)
    (dest : VariableID) (pdu : PDU) (sockOut : SendOutcome)
    (e : TransportError) (hdec : decode (writeInto buffer datagram) = none)
    (hreq : t.request sockOut dest pdu = .error e) :
    udpHandlerStep t decode buffer
      ⟨.ok datagram, chanOut, .ok dest pdu, sockOut⟩ = .exit [] e := by
  simp only [udpHandlerStep]
  rw [hdec]
  simp only [udpDrainStep]
  rw [hreq]

/-- Witness for the amended C6 at concrete inputs. -/
theorem claim_C6_witness :
    udpHandlerStep ⟨[]⟩ (fun _ => none) [0]
        ⟨.ok [1], .ok, .ok 7 ⟨[2]⟩, .ok 0⟩ =
      .exit [] (.Io .AddrNotAvailable) :=
  claim_C6_amended ⟨[]⟩ (fun _ => none) [0] [1] .ok 7 ⟨[2]⟩ (.ok 0)
    (.Io .AddrNotAvailable) rfl rfl

/-- Claim C7: each iteration drains at most one pending pair from the
outbound receiver (the embedding consumes exactly one `try_recv` outcome
per iteration, mirroring the single `try_recv()` call in the source) and
transmits it via `request`; an empty queue is not an error and the loop
continues; a disconnected queue terminates the loop with
`ConnectionAborted` — in both the datagram and the byte-stream variant
(shown on an iteration whose receive half is quiet). -/
theorem claim_C7 :
    (∀ (t : UdpTransport) (decode : List Nat → Option PDU)
        (buffer datagram : List Nat) (chanOut : SendChanOutcome)
        (sockOut : SendOutcome),
      decode (writeInto buffer datagram) = none →
      udpHandlerStep t decode buffer ⟨.ok datagram, chanOut, .empty, sockOut⟩ =
          .next [] (writeInto buffer datagram) ∧
        udpHandlerStep t decode buffer
            ⟨.ok datagram, chanOut, .disconnected, sockOut⟩ =
          .exit [] (.Io .ConnectionAborted) ∧
        ∀ (dest : VariableID) (pdu : PDU),
          t.request sockOut dest pdu = .ok () →
          udpHandlerStep t decode buffer
              ⟨.ok datagram, chanOut, .ok dest pdu, sockOut⟩ =
            .next [] (writeInto buffer datagram)) ∧
    (∀ (decodeOut : Option PDU) (chanOut : SendChanOutcome)
        (writeOut : Option ErrorKind),
      serialHandlerStep ⟨.ok 0, decodeOut, chanOut, .empty, writeOut⟩ =
          .next [] ∧
        serialHandlerStep
            ⟨.ok 0, decodeOut, chanOut, .disconnected, writeOut⟩ =
          .exit [] (.Io .ConnectionAborted) ∧
        ∀ (dest : VariableID) (pdu : PDU),
          serialRequest writeOut dest pdu = .ok () →
          serialHandlerStep ⟨.ok 0, decodeOut, chanOut, .ok dest pdu, writeOut⟩ =
            .next []) := by
  constructor
  · intro t decode buffer datagram chanOut sockOut h
    refine ⟨?_, ?_, ?_⟩
    · simp only [udpHandlerStep]
      rw [h]
      rfl
    · simp only [udpHandlerStep]
      rw [h]
      rfl
    · intro dest pdu hreq
      simp only [udpHandlerStep]
      rw [h]
      simp only [udpDrainStep]
      rw [hreq]
  · intro decodeOut chanOut writeOut
    refine ⟨rfl, rfl, ?_⟩
    intro dest pdu hreq
    simp only [serialHandlerStep, serialDrainStep]
    rw [hreq]
    rfl

/-- Witness for C7 at concrete inputs for both variants. -/
theorem claim_C7_witness :
    udpHandlerStep ⟨[(7, 9)]⟩ (fun _ => none) [0]
        ⟨.ok [1], .ok, .ok 7 ⟨[2]⟩, .ok 0⟩ =
      .next [] (writeInto [0] [1]) ∧
    serialHandlerStep ⟨.ok 0, none, .ok, .disconnected, none⟩ =
      .exit [] (.Io .ConnectionAborted) :=
  ⟨((claim_C7.1 ⟨[(7, 9)]⟩ (fun _ => none) [0] [1] .ok (.ok 0) rfl).2.2
      7 ⟨[2]⟩ rfl),
    (claim_C7.2 none .ok none).2.1⟩

/-- Claim C8: when the Daemon fails to deliver a cancel, suspend or resume
Command to a Transaction whose command channel is already closed, the
failure is surfaced as the typed error `TransactionCommuncation` carrying
both the TransactionID and the undelivered Command (via the `From` impl of
error.rs, which extracts the command out of the channel's send error), and
the single delivery attempt returns that error upward. -/
theorem claim_C8 (id : TransactionID) (cmd : Command) :
    forwardCommand false id cmd =
      .error (.TransactionCommuncation id cmd) ∧
    daemonErrorOfSendError (id, ⟨cmd⟩) = .TransactionCommuncation id cmd :=
  ⟨rfl, rfl⟩

/-- Claim C9: `UdpTransport::request` maps any successful `send_to` to
`Ok(())`, discarding the transmitted-byte count `_n` — in particular a
partial datagram transmission, with fewer bytes sent than the encoded PDU
has, is reported to the caller as success. -/
theorem claim_C9 (t : UdpTransport) (dest : VariableID) (pdu : PDU)
    (addr : SocketAddr) (n : Nat)
    (hmap : t.entity_map.lookup dest = some addr)
    (_hshort : n < (PDU.encode pdu).length) :
    t.request (.ok n) dest pdu = .ok () := by
  simp only [UdpTransport.request]
  rw [hmap]

/-- Witness for C9: one byte of a three-byte encoded PDU transmitted,
request still succeeds. -/
theorem claim_C9_witness :
    List.lookup 1 [(1, 9)] = some 9 ∧
    1 < (PDU.encode ⟨[5, 6]⟩).length ∧
    UdpTransport.request ⟨[(1, 9)]⟩ (.ok 1) 1 ⟨[5, 6]⟩ = .ok () :=
  ⟨rfl, by decide, claim_C9 ⟨[(1, 9)]⟩ 1 ⟨[5, 6]⟩ 9 1 rfl (by decide)⟩

/-- The first run for C10: a three-byte datagram, then a two-byte datagram
whose length prefix announces two payload bytes. -/
def c10InputsA : List IterInput :=
  [⟨.ok [2, 10, 20], .ok, .empty, .ok 0⟩,
    ⟨.ok [2, 9], .ok, .empty, .ok 0⟩]

/-- The second run for C10: identical to the first except for the contents
of the earlier, longer datagram. -/
def c10InputsB : List IterInput :=
  [⟨.ok [2, 10, 21], .ok, .empty, .ok 0⟩,
    ⟨.ok [2, 9], .ok, .empty, .ok 0⟩]

/-- Claim C10: `UdpTransport::pdu_handler` decodes the entire reused
receive buffer, ignoring the byte count `recv_from` returned. The two runs
`c10InputsA`/`c10InputsB` differ only in the contents of the earlier,
longer datagram, yet the PDU forwarded for the identical later, shorter
datagram differs between them — stale bytes of the earlier datagram leak
into the decode — so the forwarded PDU is not a function of the current
datagram's bytes alone. -/
theorem claim_C10 :
    c10InputsA.get? 1 = c10InputsB.get? 1 ∧
    (udpHandlerRun ⟨[]⟩ PDU.decode [0, 0, 0, 0] c10InputsA).2.get? 1 =
      some ⟨[9, 20]⟩ ∧
    (udpHandlerRun ⟨[]⟩ PDU.decode [0, 0, 0, 0] c10InputsB).2.get? 1 =
      some ⟨[9, 21]⟩ ∧
    (udpHandlerRun ⟨[]⟩ PDU.decode [0, 0, 0, 0] c10InputsA).2.get? 1 ≠
      (udpHandlerRun ⟨[]⟩ PDU.decode [0, 0, 0, 0] c10InputsB).2.get? 1 := by
  refine ⟨rfl, rfl, rfl, ?_⟩
  decide

end Cfdp
